import Mathlib

set_option autoImplicit false

namespace RooProxy

/-!
Shallow embedding of the protocol-translating reverse proxy
(`src/index.js`, the hunyuan entry point, and `src/venus.js`, the venus
entry point).  JavaScript strings are modelled as Lean `String`; JS objects
holding HTTP headers are modelled as association lists `List (String ×
String)` with first-match lookup (Express guarantees unique, lowercased
keys in `req.headers`); JS truthiness on the optional body fields is made
explicit by the `jsTruthy*` helpers.
-/

/-- JS `s.startsWith(p)` (`String.prototype.startsWith`). -/
def jsStartsWith (s p : String) : Bool :=
  p.data.isPrefixOf s.data

/-- JS `s.substring(n)`: the characters of `s` from index `n` on. -/
def jsSubstringFrom (s : String) (n : Nat) : String :=
  ⟨s.data.drop n⟩

/-- JS truthiness of a possibly-absent string field: `undefined` and the
empty string are falsy, every other string is truthy. -/
def jsTruthyStr : Option String → Bool
  | none => false
  | some s => !(s == "")

/-- JS truthiness of a possibly-absent boolean field: `undefined` and
`false` are falsy. -/
def jsTruthyBool : Option Bool → Bool
  | none => false
  | some b => b

/-- Configuration of the hunyuan entry point (`config-hunyuan.js`, not part
of the sources; its fields are read in `src/index.js` lines 14-23).  The
source names `API_KEY_PREFIX`, `TARGET_API_KEY_PREFIX` carry a `Str` suffix
here. -/
structure Config where
  apiKeyPrefixStr : String
  targetApiKeyPrefixStr : String
  workspaceId : String
  modelName : String
  enableStream : Bool
deriving DecidableEq

/-- `processAuthHeader` of `src/index.js` lines 59-67: strip the configured
client-facing prefix from the inbound `Authorization` value when present,
then prepend the configured upstream prefix to the remainder.  An absent
header is read as `''` (line 60). -/
def processAuthHeader (cfg : Config) (authHeader : Option String) : String :=
  let apiKey := authHeader.getD ""
  let apiKey :=
    if jsStartsWith apiKey cfg.apiKeyPrefixStr then
      jsSubstringFrom apiKey cfg.apiKeyPrefixStr.length
    else apiKey
  cfg.targetApiKeyPrefixStr ++ apiKey

/-- `buildHeaders` of `src/index.js` lines 70-76: a fresh header object with
exactly the rewritten `Authorization`, the workspace id and the content
type. -/
def buildHeaders (cfg : Config) (authHeader : Option String)
    (contentType : String) : List (String × String) :=
  [("Authorization", processAuthHeader cfg authHeader),
   ("Wsid", cfg.workspaceId),
   ("Content-Type", contentType)]

/-- JS object property read on a header object, first match. -/
def getHeader : List (String × String) → String → Option String
  | [], _ => none
  | (k', v) :: rest, k => if k' = k then some v else getHeader rest k

/-- JS object property assignment on a header object with unique keys:
replace the value of an existing key, else append the new pair. -/
def setHeader : List (String × String) → String → String → List (String × String)
  | [], k, v => [(k, v)]
  | (k', v') :: rest, k, v =>
      if k' = k then (k, v) :: rest else (k', v') :: setHeader rest k v

/-- JS `delete headers[k]`. -/
def removeHeader (hs : List (String × String)) (k : String) :
    List (String × String) :=
  hs.filter (fun p => p.1 ≠ k)

/-- Outbound headers of the catch-all route of `src/index.js` lines
262-268: copy the inbound headers, overwrite `authorization` with the
rewritten value, overwrite `wsid`, then delete `host`. -/
def catchAllHeaders (cfg : Config) (inbound : List (String × String))
    (authHeader : Option String) : List (String × String) :=
  removeHeader
    (setHeader
      (setHeader inbound "authorization" (processAuthHeader cfg authHeader))
      "wsid" cfg.workspaceId)
    "host"

/-- Outbound headers of the `GET /v1/models` handler (`src/index.js` lines
233-235): `buildHeaders` with the `Content-Type` entry deleted. -/
def modelsHeaders (cfg : Config) (authHeader : Option String) :
    List (String × String) :=
  removeHeader (buildHeaders cfg authHeader "application/json") "Content-Type"

/-- Case-insensitive header names are modelled by lowercasing with
`Char.toLower`; Express presents `req.headers` with lowercased names. -/
def headerNameLower (s : String) : String :=
  ⟨s.data.map Char.toLower⟩

/-- Configuration of the venus entry point (`config-venus.js`, not part of
the sources; its fields are read in `src/venus.js` lines 16-29). -/
structure VenusConfig where
  apiKeyPrefixStr : String
  targetApiKeyPrefixStr : String
  token : String
  workspaceId : Option String
  modelName : String
  enableStream : Bool
deriving DecidableEq

/-- `processAuthHeader` of `src/venus.js` lines 65-72: the client token is
stripped into a local that is then ignored; the returned value is always
the upstream prefix followed by the statically configured token. -/
def venusProcessAuthHeader (cfg : VenusConfig) (authHeader : Option String) :
    String :=
  let apiKey := authHeader.getD ""
  let _stripped :=
    if jsStartsWith apiKey cfg.apiKeyPrefixStr then
      jsSubstringFrom apiKey cfg.apiKeyPrefixStr.length
    else apiKey
  cfg.targetApiKeyPrefixStr ++ cfg.token

/-- A chat message `{role, content}`. -/
structure Message where
  role : String
  content : String
deriving DecidableEq

/-- The chat/completion request body, restricted to the four fields the
proxy reads or writes; `none` models an absent JS field. -/
structure ChatBody where
  query_id : Option String := none
  messages : Option (List Message) := none
  model : Option String := none
  stream : Option Bool := none
deriving DecidableEq

/-- `src/index.js` lines 153-155: if `query_id` is falsy (absent or empty),
set it to `query_` followed by a fresh uuid; the uuid is an oracle
parameter here. -/
def stepQueryId (freshUuid : String) (b : ChatBody) : ChatBody :=
  if jsTruthyStr b.query_id then b
  else { b with query_id := some ("query_" ++ freshUuid) }

/-- `src/index.js` lines 158-160: if `messages` is truthy (any array is)
and has length exactly 1, prepend `{content: '', role: 'system'}`. -/
def stepMessages (b : ChatBody) : ChatBody :=
  match b.messages with
  | some ms =>
      if ms.length == 1 then
        { b with messages := some ({ content := "", role := "system" } :: ms) }
      else b
  | none => b

/-- `src/index.js` lines 162-164: if `model` is falsy (absent or empty),
set it to the configured default model name. -/
def stepModel (cfg : Config) (b : ChatBody) : ChatBody :=
  if jsTruthyStr b.model then b else { b with model := some cfg.modelName }

/-- `src/index.js` lines 165-167: if `stream` is falsy (absent or `false`),
set it to the configured default streaming flag. -/
def stepStream (cfg : Config) (b : ChatBody) : ChatBody :=
  if jsTruthyBool b.stream then b else { b with stream := some cfg.enableStream }

/-- The body normalization performed inline by the
`POST /v1/chat/completions` handler, `src/index.js` lines 150-167 (the
venus chat handler, `src/venus.js` lines 152-169, is identical): the four
mutations applied in source order. -/
def normalizeChatBody (cfg : Config) (freshUuid : String) (b : ChatBody) :
    ChatBody :=
  stepStream cfg (stepModel cfg (stepMessages (stepQueryId freshUuid b)))

/-- Body pipeline of the `POST /v1/chat/completions` handler
(`src/index.js` lines 147-188): the body forwarded to the dispatcher is the
normalized body. -/
def chatHandlerBody (cfg : Config) (freshUuid : String) (b : ChatBody) :
    ChatBody :=
  normalizeChatBody cfg freshUuid b

/-- Body pipeline of the `POST /v1/completions` handler (`src/index.js`
lines 201-217): the handler reads `body.stream` for the dispatch decision
but applies no normalization step; the body reaches the dispatcher
unchanged. -/
def completionsHandlerBody (b : ChatBody) : ChatBody :=
  b

/-- Body pipeline of the catch-all route (`src/index.js` lines 273-276):
for methods other than `GET`/`HEAD` the parsed body is forwarded verbatim
(`data = req.body`), otherwise no body is sent. -/
def catchAllHandlerBody (method : String) (b : ChatBody) : Option ChatBody :=
  if method = "GET" ∨ method = "HEAD" then none else some b

/-- Dispatch decision of the chat handler (`src/index.js` line 173:
`const stream = body.stream` read after normalization, tested for
truthiness on line 178). -/
def chatDispatchStreams (cfg : Config) (freshUuid : String) (b : ChatBody) :
    Bool :=
  jsTruthyBool (normalizeChatBody cfg freshUuid b).stream

/-- Dispatch decision of the completions handler (`src/index.js` line 207:
`const stream = body.stream || false`). -/
def completionsDispatchStreams (b : ChatBody) : Bool :=
  jsTruthyBool b.stream

/-- What the upstream byte stream does after a successful 200 response:
either it emits `chunks` and ends normally, or it emits `chunks` and then
raises a stream error carrying `message`.  This models the `data`/`end`/
`error` events on `response.data` in `src/index.js` lines 125-137. -/
inductive StreamOutcome where
  | ended (chunks : List String)
  | errored (chunks : List String) (message : String)
deriving DecidableEq

/-- Outcome of the streaming upstream call (`httpClient.post` with
`responseType: 'stream'`, `src/index.js` lines 104-108): the promise
rejects with an error whose `.message` is carried by `thrown` (axios
rejects on any non-2xx status, on transport failure, and on timeout), or
it resolves with a status, a status text and a live stream.  With axios's
default `validateStatus`, resolved statuses are the 2xx ones, so
`response 204 ...` is reachable while `response 404 ...` surfaces as
`thrown`. -/
inductive UpstreamStreamResult where
  | thrown (message : String)
  | response (status : Nat) (statusText : String) (body : StreamOutcome)
deriving DecidableEq

/-- One observable action on the Express response object `res`. -/
inductive ResEvent where
  | setStatus (status : Nat)
  | writeHead (status : Nat) (headers : List (String × String))
  | write (chunk : String)
  | endResponse
deriving DecidableEq

/-- `JSON.stringify` escaping of one character, for the characters that
occur in the proxy's error messages (quote, backslash and the common
control characters; other characters are passed through). -/
def jsonEscapeChar (c : Char) : String :=
  if c = '\"' then "\\\""
  else if c = '\\' then "\\\\"
  else if c = '\n' then "\\n"
  else if c = '\r' then "\\r"
  else if c = '\t' then "\\t"
  else String.singleton c

/-- `JSON.stringify` of a string value. -/
def jsonStringifyStr (s : String) : String :=
  "\"" ++ String.join (s.data.map jsonEscapeChar) ++ "\""

/-- `JSON.stringify({ error: { message: m } })`. -/
def jsonErrorBody (m : String) : String :=
  "\x7b\"error\":\x7b\"message\":" ++ jsonStringifyStr m ++ "\x7d\x7d"

/-- One SSE frame `data: <payload>\n\n`. -/
def sseDataFrame (payload : String) : String :=
  "data: " ++ payload ++ "\n\n"

/-- The error frame written on a mid-stream error or a thrown request,
`src/index.js` lines 134 and 140. -/
def streamingErrorFrame (message : String) : String :=
  sseDataFrame (jsonErrorBody ("Streaming error: " ++ message))

/-- The error frame written when upstream answers with a non-200 status
before any data, `src/index.js` line 112. -/
def targetApiErrorFrame (statusText : String) : String :=
  sseDataFrame (jsonErrorBody ("Error from target API: " ++ statusText))

/-- The terminal sentinel frame, `src/index.js` lines 135 and 141. -/
def doneFrame : String :=
  "data: [DONE]\n\n"

/-- The SSE response headers, `src/index.js` lines 118-122. -/
def sseHeaders : List (String × String) :=
  [("Content-Type", "text/event-stream"),
   ("Cache-Control", "no-cache"),
   ("Connection", "keep-alive")]

/-- Result of one run of `handleStreaming`: the outbound body sent to
upstream (after the `body.stream = true` mutation on line 102) and the
trace of actions on the client response object. -/
structure StreamingRun where
  outBody : ChatBody
  events : List ResEvent
deriving DecidableEq

/-- `handleStreaming` of `src/index.js` lines 99-144 (`src/venus.js` lines
101-146 is identical), with the upstream call's outcome as an oracle
parameter:
the body's stream flag is forced to `true` (line 102) and the post is
issued; if the promise rejects, the catch block (lines 138-143) sets status
500 and writes the error frame, the sentinel and ends; if it resolves with
a non-200 status, lines 110-115 set that status, write the target-API error
frame and end; on status 200, lines 118-137 write the SSE head, forward
every chunk verbatim, and on normal end just end, while on a stream error
they write the error frame, the sentinel and end. -/
def handleStreaming (body : ChatBody) (upstream : UpstreamStreamResult) :
    StreamingRun :=
  let outBody := { body with stream := some true }
  match upstream with
  | .thrown message =>
      { outBody := outBody
        events := [.setStatus 500, .write (streamingErrorFrame message),
                   .write doneFrame, .endResponse] }
  | .response status statusText sb =>
      if status ≠ 200 then
        { outBody := outBody
          events := [.setStatus status, .write (targetApiErrorFrame statusText),
                     .endResponse] }
      else
        match sb with
        | .ended chunks =>
            { outBody := outBody
              events := .writeHead 200 sseHeaders ::
                (chunks.map .write ++ [.endResponse]) }
        | .errored chunks message =>
            { outBody := outBody
              events := .writeHead 200 sseHeaders ::
                (chunks.map .write ++
                  [.write (streamingErrorFrame message), .write doneFrame,
                   .endResponse]) }

/-- The chunk payloads written to the client, in order. -/
def writtenChunks : List ResEvent → List String
  | [] => []
  | .setStatus _ :: rest => writtenChunks rest
  | .writeHead _ _ :: rest => writtenChunks rest
  | .write s :: rest => s :: writtenChunks rest
  | .endResponse :: rest => writtenChunks rest

/-- Outcome of the synchronous upstream call (`httpClient.post`,
`src/index.js` lines 81-84): with axios's default `validateStatus` the
promise resolves only for 2xx statuses and rejects otherwise — carrying
the failing status for an HTTP error, or only a message for a transport
failure (connection refused, DNS failure, timeout). -/
inductive SyncUpstream where
  | resolved (status : Nat) (body : String)
  | rejectedHttp (status : Nat) (message : String)
  | rejectedTransport (message : String)
deriving DecidableEq

/-- The value returned by `handleNonStreaming` on success, `src/index.js`
lines 87-91. -/
structure SyncResult where
  data : String
  status : Nat
  headers : List (String × String)
deriving DecidableEq

/-- `handleNonStreaming` of `src/index.js` lines 79-96: on a resolved
upstream call, return the data, status and a JSON content type; on any
rejection, re-throw `Error('Error forwarding request: ' + error)` — the
upstream status code is not preserved. -/
def handleNonStreaming (up : SyncUpstream) : Except String SyncResult :=
  match up with
  | .resolved status body =>
      .ok { data := body, status := status,
            headers := [("Content-Type", "application/json")] }
  | .rejectedHttp _ message =>
      .error ("Error forwarding request: " ++ message)
  | .rejectedTransport message =>
      .error ("Error forwarding request: " ++ message)

/-- The body of the uniform JSON error envelope
`\x7berror: \x7bmessage, type: 'server_error'\x7d\x7d`. -/
structure ErrorEnvelope where
  message : String
  type : String
deriving DecidableEq

/-- A response body on a synchronous path: either upstream JSON relayed
verbatim or the error envelope. -/
inductive ResponseBody where
  | json (s : String)
  | envelope (e : ErrorEnvelope)
deriving DecidableEq

/-- A synchronous HTTP response to the client (status and body). -/
structure SyncResponse where
  status : Nat
  body : ResponseBody
deriving DecidableEq

/-- The synchronous branch of the `POST /v1/chat/completions` handler,
`src/index.js` lines 185-197: relay `handleNonStreaming`'s result; the
surrounding catch converts any thrown error into HTTP 500 with the uniform
envelope `\x7berror: \x7bmessage: error.message, type:
'server_error'\x7d\x7d`. -/
def chatSyncResponse (up : SyncUpstream) : SyncResponse :=
  match handleNonStreaming up with
  | .ok r => { status := r.status, body := .json r.data }
  | .error message =>
      { status := 500,
        body := .envelope { message := message, type := "server_error" } }

/-- The catch-all route's response, `src/index.js` lines 279-297: relay the
upstream status and body on success; the catch converts any rejection into
HTTP 500 with the uniform envelope (message `Error forwarding request:
<error.message>`). -/
def catchAllResponse (up : SyncUpstream) : SyncResponse :=
  match up with
  | .resolved status body => { status := status, body := .json body }
  | .rejectedHttp _ message =>
      { status := 500,
        body := .envelope
          { message := "Error forwarding request: " ++ message,
            type := "server_error" } }
  | .rejectedTransport message =>
      { status := 500,
        body := .envelope
          { message := "Error forwarding request: " ++ message,
            type := "server_error" } }

/-! Helper lemmas. -/

theorem string_eq_of_data_eq (a b : String) (h : a.data = b.data) : a = b := by
  cases a; cases b; simp_all

theorem isPrefixOf_append_self (l r : List Char) : l.isPrefixOf (l ++ r) = true := by
  simp

theorem exists_of_isPrefixOf (l₁ l₂ : List Char) (h : l₁.isPrefixOf l₂ = true) :
    ∃ t, l₂ = l₁ ++ t := by
  rw [ List.isPrefixOf_iff_prefix] at h
  obtain ⟨t, ht⟩ := h
  exact ⟨t, ht.symm⟩

theorem processAuthHeader_passthrough (cfg : Config) (rest : String) :
    processAuthHeader cfg (some (cfg.apiKeyPrefixStr ++ rest)) =
      cfg.targetApiKeyPrefixStr ++ rest := by
  have hpre : jsStartsWith (cfg.apiKeyPrefixStr ++ rest) cfg.apiKeyPrefixStr = true := by
    simp [jsStartsWith, String.data_append, isPrefixOf_append_self]
  have hsub :
      jsSubstringFrom (cfg.apiKeyPrefixStr ++ rest) cfg.apiKeyPrefixStr.length = rest := by
    apply string_eq_of_data_eq
    show (cfg.apiKeyPrefixStr ++ rest).data.drop cfg.apiKeyPrefixStr.length = rest.data
    rw [String.data_append]
    exact List.drop_left cfg.apiKeyPrefixStr.data rest.data
  simp [processAuthHeader, hpre, hsub]

theorem processAuthHeader_data (cfg : Config) (raw : String) :
    (processAuthHeader cfg (some raw)).data =
      cfg.targetApiKeyPrefixStr.data ++
        (if cfg.apiKeyPrefixStr.data.isPrefixOf raw.data then
          raw.data.drop cfg.apiKeyPrefixStr.data.length
        else raw.data) := by
  by_cases hp : cfg.apiKeyPrefixStr.data.isPrefixOf raw.data
  · simp [processAuthHeader, jsStartsWith, jsSubstringFrom, hp, String.data_append]
  · simp [processAuthHeader, jsStartsWith, hp, String.data_append]

theorem processAuthHeader_ne_raw (cfg : Config)
    (h1 : cfg.targetApiKeyPrefixStr ≠ "")
    (h2 : cfg.targetApiKeyPrefixStr ≠ cfg.apiKeyPrefixStr)
    (raw : String) : processAuthHeader cfg (some raw) ≠ raw := by
  intro hEq
  have hd := congrArg String.data hEq
  rw [processAuthHeader_data] at hd
  by_cases hp : cfg.apiKeyPrefixStr.data.isPrefixOf raw.data
  · rw [if_pos hp] at hd
    obtain ⟨t, ht⟩ := exists_of_isPrefixOf _ _ hp
    rw [ht, List.drop_left] at hd
    exact h2 (string_eq_of_data_eq _ _ (List.append_cancel_right hd))
  · rw [if_neg hp] at hd
    have hlen := congrArg List.length hd
    simp [List.length_append] at hlen
    exact h1 (string_eq_of_data_eq _ _ (by simp [List.length_eq_zero.mp hlen]))

theorem getHeader_removeHeader_self (hs : List (String × String)) (k : String) :
    getHeader (removeHeader hs k) k = none := by
  induction hs with
  | nil => rfl
  | cons p rest ih =>
    rcases p with ⟨k', v⟩
    by_cases h : k' = k
    · simpa [removeHeader, h] using ih
    · simpa [removeHeader, List.filter_cons, h, getHeader] using ih

theorem getHeader_removeHeader_ne (hs : List (String × String)) (k₁ k₂ : String)
    (h : k₁ ≠ k₂) : getHeader (removeHeader hs k₁) k₂ = getHeader hs k₂ := by
  induction hs with
  | nil => rfl
  | cons p rest ih =>
    rcases p with ⟨k', v⟩
    simp only [removeHeader, ne_eq, decide_not] at ih ⊢
    by_cases hk : k' = k₁
    · subst hk
      simp [List.filter_cons, getHeader, h, ih]
    · simp [List.filter_cons, hk, getHeader, ih]

theorem getHeader_setHeader_self (hs : List (String × String)) (k v : String) :
    getHeader (setHeader hs k v) k = some v := by
  induction hs with
  | nil => simp [setHeader, getHeader]
  | cons p rest ih =>
    rcases p with ⟨k', v'⟩
    by_cases h : k' = k
    · simp [setHeader, h, getHeader]
    · simp [setHeader, h, getHeader, ih]

theorem getHeader_setHeader_ne (hs : List (String × String)) (k₁ k₂ v : String)
    (h : k₁ ≠ k₂) : getHeader (setHeader hs k₁ v) k₂ = getHeader hs k₂ := by
  induction hs with
  | nil => simp [setHeader, getHeader, h]
  | cons p rest ih =>
    rcases p with ⟨k', v'⟩
    by_cases hk : k' = k₁
    · subst hk
      simp [setHeader, getHeader, h, ih]
    · simp [setHeader, hk, getHeader, ih]

theorem getHeader_eq_none_of_notin (hs : List (String × String)) (k : String)
    (h : ∀ p ∈ hs, p.1 ≠ k) : getHeader hs k = none := by
  induction hs with
  | nil => rfl
  | cons p rest ih =>
    rcases p with ⟨k', v'⟩
    have hk : k' ≠ k := h (k', v') (by simp)
    simp [getHeader, hk]
    exact ih fun q hq => h q (by simp [hq])

theorem stepQueryId_messages (f : String) (b : ChatBody) :
    (stepQueryId f b).messages = b.messages := by
  unfold stepQueryId; split <;> rfl

theorem stepQueryId_stream (f : String) (b : ChatBody) :
    (stepQueryId f b).stream = b.stream := by
  unfold stepQueryId; split <;> rfl

theorem stepMessages_query_id (b : ChatBody) :
    (stepMessages b).query_id = b.query_id := by
  unfold stepMessages
  rcases hm : b.messages with _ | ms <;> simp [hm]
  split <;> rfl

theorem stepMessages_stream (b : ChatBody) :
    (stepMessages b).stream = b.stream := by
  unfold stepMessages
  rcases hm : b.messages with _ | ms <;> simp [hm]
  split <;> rfl

theorem stepModel_query_id (cfg : Config) (b : ChatBody) :
    (stepModel cfg b).query_id = b.query_id := by
  unfold stepModel; split <;> rfl

theorem stepModel_messages (cfg : Config) (b : ChatBody) :
    (stepModel cfg b).messages = b.messages := by
  unfold stepModel; split <;> rfl

theorem stepModel_stream (cfg : Config) (b : ChatBody) :
    (stepModel cfg b).stream = b.stream := by
  unfold stepModel; split <;> rfl

theorem stepStream_query_id (cfg : Config) (b : ChatBody) :
    (stepStream cfg b).query_id = b.query_id := by
  unfold stepStream; split <;> rfl

theorem stepStream_messages (cfg : Config) (b : ChatBody) :
    (stepStream cfg b).messages = b.messages := by
  unfold stepStream; split <;> rfl

theorem stepMessages_of_single (b : ChatBody) (ms : List Message)
    (hms : b.messages = some ms) (h1 : ms.length = 1) :
    (stepMessages b).messages =
      some ({ content := "", role := "system" } :: ms) := by
  unfold stepMessages
  simp [hms, h1]

theorem stepMessages_of_not_single (b : ChatBody) (ms : List Message)
    (hms : b.messages = some ms) (h1 : ms.length ≠ 1) :
    (stepMessages b).messages = some ms := by
  unfold stepMessages
  simp [hms, h1]

theorem writtenChunks_map_write (chunks : List String) (tail : List ResEvent) :
    writtenChunks (chunks.map ResEvent.write ++ tail) =
      chunks ++ writtenChunks tail := by
  induction chunks with
  | nil => rfl
  | cons c cs ih => simp [writtenChunks, ih]

/-! Claim theorems. -/

/-- Claim C1, counterexample: when upstream answers a streaming request
with status 204 before any data (a status axios resolves), the relay writes
the error frame and closes without ever writing the `data: [DONE]` sentinel
— the claimed error-frame-then-DONE termination fails on this path. -/
theorem stream_reject_no_done_counterexample :
    (handleStreaming ⟨none, none, none, none⟩
          (.response 204 "No Content" (.ended []))).events =
        [ResEvent.setStatus 204,
         ResEvent.write (targetApiErrorFrame "No Content"),
         ResEvent.endResponse] ∧
      ResEvent.write doneFrame ∉
        (handleStreaming ⟨none, none, none, none⟩
            (.response 204 "No Content" (.ended []))).events :=
  ⟨rfl, by decide⟩

/-- Claim C1, amended: after the decision to stream, a mid-stream upstream
error and a thrown request both terminate with exactly one error event
frame, then exactly one `data: [DONE]` sentinel, then the close; the
remaining failure path — a non-200 upstream status before any data —
instead writes that status and a single error event frame and closes
without the sentinel. -/
theorem streaming_failure_frame_pairs (b : ChatBody)
    (message statusText : String) (chunks : List String) (status : Nat)
    (sb : StreamOutcome) :
    (handleStreaming b (.thrown message)).events =
        [ResEvent.setStatus 500, ResEvent.write (streamingErrorFrame message),
         ResEvent.write doneFrame, ResEvent.endResponse] ∧
      (handleStreaming b (.response 200 statusText (.errored chunks message))).events =
        ResEvent.writeHead 200 sseHeaders ::
          (chunks.map ResEvent.write ++
            [ResEvent.write (streamingErrorFrame message),
             ResEvent.write doneFrame, ResEvent.endResponse]) ∧
      (status ≠ 200 →
        (handleStreaming b (.response status statusText sb)).events =
          [ResEvent.setStatus status,
           ResEvent.write (targetApiErrorFrame statusText),
           ResEvent.endResponse]) := by
  refine ⟨rfl, by simp [handleStreaming], fun h => ?_⟩
  cases sb <;> simp [handleStreaming, h]

theorem streaming_failure_frame_pairs_witness :
    (201 : Nat) ≠ 200 ∧
      (handleStreaming ⟨none, none, none, none⟩
          (.response 201 "Created" (.ended []))).events =
        [ResEvent.setStatus 201, ResEvent.write (targetApiErrorFrame "Created"),
         ResEvent.endResponse] :=
  ⟨by decide,
   (streaming_failure_frame_pairs ⟨none, none, none, none⟩ "m" "Created" [] 201
      (.ended [])).2.2 (by decide)⟩

/-- Claim C2: for every inbound `Authorization` value of the form
`<client prefix><token-rest>`, `processAuthHeader` of the hunyuan entry
point returns `<upstream prefix><token-rest>`; in particular
`"Bearer sk-ABC"` with client prefix `"Bearer sk-"` and upstream prefix
`"Bearer up-"` yields `"Bearer up-ABC"` (token-passthrough policy). -/
theorem auth_token_passthrough :
    (∀ (cfg : Config) (rest : String),
        processAuthHeader cfg (some (cfg.apiKeyPrefixStr ++ rest)) =
          cfg.targetApiKeyPrefixStr ++ rest) ∧
      processAuthHeader
          { apiKeyPrefixStr := "Bearer sk-", targetApiKeyPrefixStr := "Bearer up-",
            workspaceId := "w", modelName := "m", enableStream := true }
          (some "Bearer sk-ABC") = "Bearer up-ABC" :=
  ⟨processAuthHeader_passthrough, by decide⟩

/-- Claim C3: when the upstream stream yields `chunks` and ends normally,
the relay writes the SSE head, then exactly the chunks, in order and
unmodified, and closes with no extra frame. -/
theorem streaming_relay_transparent (b : ChatBody) (statusText : String)
    (chunks : List String) :
    (handleStreaming b (.response 200 statusText (.ended chunks))).events =
        ResEvent.writeHead 200 sseHeaders ::
          (chunks.map ResEvent.write ++ [ResEvent.endResponse]) ∧
      writtenChunks
          (handleStreaming b (.response 200 statusText (.ended chunks))).events =
        chunks := by
  constructor
  · simp [handleStreaming]
  · simp [handleStreaming, writtenChunks, writtenChunks_map_write]

/-- Claim C4: when `messages` has exactly one element the normalized body
prepends `{role: system, content: empty}` in front of the original sole
message; for any other length the array is unchanged. -/
theorem single_message_prepends_system (cfg : Config) (freshUuid : String)
    (b : ChatBody) (ms : List Message) (hms : b.messages = some ms) :
    (ms.length = 1 →
        (normalizeChatBody cfg freshUuid b).messages =
          some ({ content := "", role := "system" } :: ms)) ∧
      (ms.length ≠ 1 →
        (normalizeChatBody cfg freshUuid b).messages = some ms) := by
  constructor
  · intro h1
    unfold normalizeChatBody
    rw [stepStream_messages, stepModel_messages]
    exact stepMessages_of_single _ ms (by rw [stepQueryId_messages, hms]) h1
  · intro h1
    unfold normalizeChatBody
    rw [stepStream_messages, stepModel_messages]
    exact stepMessages_of_not_single _ ms (by rw [stepQueryId_messages, hms]) h1

theorem single_message_prepends_system_witness :
    ({ messages := some [{ role := "user", content := "hi" }] } : ChatBody).messages =
        some [{ role := "user", content := "hi" }] ∧
      (normalizeChatBody
          { apiKeyPrefixStr := "Bearer sk-", targetApiKeyPrefixStr := "Bearer up-",
            workspaceId := "w", modelName := "m", enableStream := true }
          "u" { messages := some [{ role := "user", content := "hi" }] }).messages =
        some [{ content := "", role := "system" },
              { role := "user", content := "hi" }] :=
  ⟨rfl,
   (single_message_prepends_system
      { apiKeyPrefixStr := "Bearer sk-", targetApiKeyPrefixStr := "Bearer up-",
        workspaceId := "w", modelName := "m", enableStream := true }
      "u" { messages := some [{ role := "user", content := "hi" }] }
      [{ role := "user", content := "hi" }] rfl).1 rfl⟩

/-- Claim C5, counterexample: a body that explicitly supplies
`stream: false` does not keep its value — with default streaming flag
`true`, normalization overwrites it to `true`, because the source guards
the default with JS truthiness (`if (!body.stream)`) rather than an
absence check. -/
theorem stream_false_overwritten_counterexample :
    ({ query_id := some "q", messages := some [], model := some "m",
       stream := some false } : ChatBody).stream = some false ∧
      (normalizeChatBody
          { apiKeyPrefixStr := "", targetApiKeyPrefixStr := "", workspaceId := "",
            modelName := "m", enableStream := true } "u"
          { query_id := some "q", messages := some [], model := some "m",
            stream := some false }).stream = some true :=
  ⟨rfl, by decide⟩

/-- Claim C5, amended: the normalized `stream` field is set to the
configured default exactly when the supplied `stream` is falsy — absent or
explicitly `false`; only an explicit `stream: true` survives
normalization. -/
theorem stream_default_on_falsy (cfg : Config) (freshUuid : String)
    (b : ChatBody) :
    (normalizeChatBody cfg freshUuid b).stream =
      if b.stream = some true then some true else some cfg.enableStream := by
  have h : (stepModel cfg (stepMessages (stepQueryId freshUuid b))).stream =
      b.stream := by
    rw [stepModel_stream, stepMessages_stream, stepQueryId_stream]
  unfold normalizeChatBody stepStream
  rcases hb : b.stream with _ | v
  · simp [jsTruthyBool, h, hb]
  · cases v <;> simp [jsTruthyBool, h, hb]

/-- Claim C6, counterexample: the `POST /v1/completions` handler forwards
the body with `query_id` still absent, while the normalizer's first rule
would generate one — the four rules are not applied on that endpoint. -/
theorem completions_skips_rules_counterexample :
    (completionsHandlerBody
          { query_id := none, messages := some [{ role := "user", content := "hi" }],
            model := none, stream := none }).query_id = none ∧
      (normalizeChatBody
          { apiKeyPrefixStr := "", targetApiKeyPrefixStr := "", workspaceId := "",
            modelName := "m", enableStream := false } "u"
          { query_id := none, messages := some [{ role := "user", content := "hi" }],
            model := none, stream := none }).query_id = some "query_u" :=
  ⟨rfl, by decide⟩

/-- Claim C6, amended: the Request Normalizer's four rules are applied on
`POST /v1/chat/completions` only; the `POST /v1/completions` handler and
the catch-all route forward the body without applying any of them. -/
theorem normalization_only_on_chat_endpoint (cfg : Config)
    (freshUuid : String) (b : ChatBody) :
    chatHandlerBody cfg freshUuid b = normalizeChatBody cfg freshUuid b ∧
      completionsHandlerBody b = b ∧
      catchAllHandlerBody "POST" b = some b ∧
      (b.query_id = none →
        (chatHandlerBody cfg freshUuid b).query_id =
          some ("query_" ++ freshUuid)) := by
  refine ⟨rfl, rfl, by simp [catchAllHandlerBody], fun hq => ?_⟩
  unfold chatHandlerBody normalizeChatBody
  rw [stepStream_query_id, stepModel_query_id, stepMessages_query_id]
  unfold stepQueryId
  simp [jsTruthyStr, hq]

theorem normalization_only_on_chat_endpoint_witness :
    ({ messages := some [] } : ChatBody).query_id = none ∧
      (chatHandlerBody
          { apiKeyPrefixStr := "", targetApiKeyPrefixStr := "", workspaceId := "",
            modelName := "m", enableStream := false } "u"
          { messages := some [] }).query_id = some "query_u" :=
  ⟨rfl,
   (normalization_only_on_chat_endpoint
      { apiKeyPrefixStr := "", targetApiKeyPrefixStr := "", workspaceId := "",
        modelName := "m", enableStream := false } "u"
      { messages := some [] }).2.2.2 rfl⟩

/-- Claim C7: every streaming dispatch forwards an outbound body whose
`stream` flag is `true`, whatever its prior value (`body.stream = true` on
line 102 before the post is issued). -/
theorem dispatcher_forces_stream_flag (b : ChatBody)
    (up : UpstreamStreamResult) :
    (handleStreaming b up).outBody = { b with stream := some true } := by
  cases up with
  | thrown m => rfl
  | response st stText sb =>
    by_cases h : st = 200
    · subst h; cases sb <;> simp [handleStreaming]
    · simp [handleStreaming, h]

/-- Claim C8: on the specialized endpoints and the catch-all route, the
outbound header set contains no `Host` header (under any capitalization,
given Express's lowercased inbound names), and its `Authorization` value is
always the translator's rewrite of the client value — which differs from
the raw client value whenever the upstream prefix is non-empty and distinct
from the client prefix. -/
theorem outbound_header_invariant (cfg : Config)
    (inbound : List (String × String)) (auth : Option String)
    (contentType k : String)
    (hlow : ∀ p ∈ inbound, headerNameLower p.1 = p.1) :
    (headerNameLower k = "host" →
        getHeader (catchAllHeaders cfg inbound auth) k = none ∧
        getHeader (buildHeaders cfg auth contentType) k = none ∧
        getHeader (modelsHeaders cfg auth) k = none) ∧
      getHeader (catchAllHeaders cfg inbound auth) "authorization" =
        some (processAuthHeader cfg auth) ∧
      getHeader (buildHeaders cfg auth contentType) "Authorization" =
        some (processAuthHeader cfg auth) ∧
      getHeader (modelsHeaders cfg auth) "Authorization" =
        some (processAuthHeader cfg auth) ∧
      (cfg.targetApiKeyPrefixStr ≠ "" →
        cfg.targetApiKeyPrefixStr ≠ cfg.apiKeyPrefixStr →
        ∀ raw, processAuthHeader cfg (some raw) ≠ raw) := by
  constructor
  · intro hk
    refine ⟨?_, ?_, ?_⟩
    · unfold catchAllHeaders
      by_cases hhost : k = "host"
      · subst hhost; exact getHeader_removeHeader_self _ _
      · have hauth : ("authorization" : String) ≠ k := by
          intro he; rw [← he] at hk; exact absurd hk (by decide)
        have hwsid : ("wsid" : String) ≠ k := by
          intro he; rw [← he] at hk; exact absurd hk (by decide)
        have hhostk : ("host" : String) ≠ k := fun he => hhost he.symm
        rw [getHeader_removeHeader_ne _ _ _ hhostk,
            getHeader_setHeader_ne _ _ _ _ hwsid,
            getHeader_setHeader_ne _ _ _ _ hauth]
        apply getHeader_eq_none_of_notin
        intro p hp hpk
        have hl := hlow p hp
        rw [hpk] at hl
        exact hhost (hl.symm.trans hk)
    · apply getHeader_eq_none_of_notin
      intro p hp hpk
      have h1 : p.1 = "Authorization" ∨ p.1 = "Wsid" ∨ p.1 = "Content-Type" := by
        simp only [buildHeaders, List.mem_cons, List.not_mem_nil, or_false] at hp
        rcases hp with h | h | h <;> simp [h]
      rw [hpk] at h1
      rcases h1 with h | h | h <;> rw [h] at hk <;> exact absurd hk (by decide)
    · apply getHeader_eq_none_of_notin
      intro p hp hpk
      unfold modelsHeaders removeHeader at hp
      have hp' := List.mem_of_mem_filter hp
      have h1 : p.1 = "Authorization" ∨ p.1 = "Wsid" ∨ p.1 = "Content-Type" := by
        simp only [buildHeaders, List.mem_cons, List.not_mem_nil, or_false] at hp'
        rcases hp' with h | h | h <;> simp [h]
      rw [hpk] at h1
      rcases h1 with h | h | h <;> rw [h] at hk <;> exact absurd hk (by decide)
  refine ⟨?_, ?_, ?_, processAuthHeader_ne_raw cfg⟩
  · unfold catchAllHeaders
    rw [getHeader_removeHeader_ne _ _ _ (by decide),
        getHeader_setHeader_ne _ _ _ _ (by decide)]
    exact getHeader_setHeader_self _ _ _
  · simp [buildHeaders, getHeader]
  · unfold modelsHeaders
    rw [getHeader_removeHeader_ne _ _ _ (by decide)]
    simp [buildHeaders, getHeader]

theorem outbound_header_invariant_witness :
    (∀ p ∈ [("host", "example.com"), ("authorization", "Bearer sk-abc"),
            ("accept", "a")], headerNameLower (Prod.fst p) = Prod.fst p) ∧
      getHeader
          (catchAllHeaders
            { apiKeyPrefixStr := "Bearer sk-", targetApiKeyPrefixStr := "Bearer up-",
              workspaceId := "w", modelName := "m", enableStream := true }
            [("host", "example.com"), ("authorization", "Bearer sk-abc"),
             ("accept", "a")]
            (some "Bearer sk-abc")) "Host" = none :=
  ⟨by decide,
   ((outbound_header_invariant
      { apiKeyPrefixStr := "Bearer sk-", targetApiKeyPrefixStr := "Bearer up-",
        workspaceId := "w", modelName := "m", enableStream := true }
      [("host", "example.com"), ("authorization", "Bearer sk-abc"),
       ("accept", "a")]
      (some "Bearer sk-abc") "application/json" "Host" (by decide)).1
      (by decide)).1⟩

/-- Claim C9: every rejected synchronous upstream call — HTTP error of any
status, or transport failure — yields a client response with status 500 and
the uniform envelope body, on the chat endpoint and on the catch-all
route alike; the upstream status code is collapsed to 500. -/
theorem sync_failure_uniform_envelope (status : Nat) (message : String) :
    chatSyncResponse (.rejectedHttp status message) =
        { status := 500,
          body := .envelope
            { message := "Error forwarding request: " ++ message,
              type := "server_error" } } ∧
      chatSyncResponse (.rejectedTransport message) =
        { status := 500,
          body := .envelope
            { message := "Error forwarding request: " ++ message,
              type := "server_error" } } ∧
      catchAllResponse (.rejectedHttp status message) =
        { status := 500,
          body := .envelope
            { message := "Error forwarding request: " ++ message,
              type := "server_error" } } ∧
      catchAllResponse (.rejectedTransport message) =
        { status := 500,
          body := .envelope
            { message := "Error forwarding request: " ++ message,
              type := "server_error" } } :=
  ⟨rfl, rfl, rfl, rfl⟩

/-- Claim C10: the venus entry point's translated `Authorization` is
independent of the inbound header — any two inbound values (absent
included) give the same output, namely the configured upstream prefix
followed by the configured static token. -/
theorem venus_auth_noninterference (cfg : VenusConfig) (a b : Option String) :
    venusProcessAuthHeader cfg a = venusProcessAuthHeader cfg b ∧
      venusProcessAuthHeader cfg a = cfg.targetApiKeyPrefixStr ++ cfg.token :=
  ⟨rfl, rfl⟩

end RooProxy
